import Mathlib

/-!
Verification of the tuning-orchestration scripts of the
tvm-cuda-int8-benchmark repository (tune_relay_int8_cuda.py, from_lib.py,
from_lib_fp32.py).  External library behaviour (tuner search, record
reduction, task extraction, graph building) is abstracted by parameters;
path construction, dispatch, loop structure and file lifecycle are
embedded faithfully from the source.
-/

namespace TvmBench

/-- A single measurement record in a tuning log file; its payload is opaque
to the orchestration code. -/
structure Record where
  payload : Nat
deriving DecidableEq, Repr

/-- Python exception values that the scripts can raise. -/
inductive PyError where
  | valueError (msg : String)
  | fileNotFoundError (path : String)
  | unboundLocalError (name : String)
deriving DecidableEq, Repr

/-- The workload descriptor fields read by tune_and_evaluate:
workload[0] (operator name), workload[2][0] (output channels) and
workload[2][1] (input channels). -/
structure Workload where
  op : String
  outChannels : Nat
  inChannels : Nat
deriving DecidableEq, Repr

/-- A tuning task as seen by the orchestrator: only the size of its
configuration space and its workload descriptor are inspected; further
identity is carried by the name. -/
structure Task where
  name : String
  configSpaceSize : Nat
  workload : Workload
deriving DecidableEq, Repr

/-- A tuner object produced by the dispatch in tune_tasks
(lines 269-304 of tune_relay_int8_cuda.py). -/
inductive Tuner where
  | xgb (lossType : String) (featureType : Option String)
  | ga (popSize : Nat)
  | random
  | gridsearch
deriving DecidableEq, Repr

/-- The tuner-name dispatch of tune_tasks, lines 269-304: twelve xgb
variants, then ga, random, gridsearch; any other name is rejected
(the source raises ValueError there). -/
def createTunerObj (tuner : String) : Option Tuner :=
  if tuner = "xgb" then some (.xgb "reg" none)
  else if tuner = "xgb_knob" then some (.xgb "reg" (some "knob"))
  else if tuner = "xgb_itervar" then some (.xgb "reg" (some "itervar"))
  else if tuner = "xgb_curve" then some (.xgb "reg" (some "curve"))
  else if tuner = "xgb_rank" then some (.xgb "rank" none)
  else if tuner = "xgb_rank_knob" then some (.xgb "rank" (some "knob"))
  else if tuner = "xgb_rank_itervar" then some (.xgb "rank" (some "itervar"))
  else if tuner = "xgb_rank_curve" then some (.xgb "rank" (some "curve"))
  else if tuner = "xgb_rank_binary" then some (.xgb "rank-binary" none)
  else if tuner = "xgb_rank_binary_knob" then some (.xgb "rank-binary" (some "knob"))
  else if tuner = "xgb_rank_binary_itervar" then some (.xgb "rank-binary" (some "itervar"))
  else if tuner = "xgb_rank_binary_curve" then some (.xgb "rank-binary" (some "curve"))
  else if tuner = "ga" then some (.ga 100)
  else if tuner = "random" then some .random
  else if tuner = "gridsearch" then some .gridsearch
  else none

/-- The two log files touched by tune_tasks; none means the file does not
exist on disk. -/
structure FS where
  tmpLog : Option (List Record)
  finalLog : Option (List Record)
deriving DecidableEq, Repr

/-- Observable actions of one run of tune_tasks, in program order. -/
inductive Event where
  | createTunerEv (t : Tuner) (tsk : Task)
  | loadHistoryEv (records : List Record)
  | tuneEv (tsk : Task) (trialsRequested : Nat)
deriving DecidableEq, Repr

/-- Outcome of a run: the exception that escaped (if any), the final file
state, and the trace of observable actions up to that point. -/
structure RunResult where
  err : Option PyError
  fs : FS
  events : List Event
deriving DecidableEq, Repr

/-- Line 261 of tune_relay_int8_cuda.py: tmp_log_file = log_filename + ".tmp". -/
def tmp_log_file (log_filename : String) : String :=
  log_filename ++ ".tmp"

/-- Behaviour of the autotvm.callback.log_to_file callback over one tune
call: each measured result is appended to the file, which is opened in
append mode (and hence created) only when at least one result is logged. -/
def appendLog (tmp : Option (List Record)) (recs : List Record) : Option (List Record) :=
  if recs.isEmpty then tmp else some (tmp.getD [] ++ recs)

/-- One iteration of the tune_tasks loop (lines 265-321): construct the
tuner by name (raising ValueError for an unrecognized name), optionally
load the current temporary log as history, then run the search with
budget min(n_trial, len(tsk.config_space)).  The records the external
tuner logs for iteration i with a given budget are abstracted by tr. -/
def tuneOneTask (tr : Nat → Task → Nat → List Record)
    (tuner : String) (n_trial : Nat) (useTL : Bool)
    (i : Nat) (tsk : Task) (fs : FS) : Except PyError (FS × List Event) :=
  match createTunerObj tuner with
  | none => .error (.valueError ("Invalid tuner: " ++ tuner))
  | some tObj =>
    let historyEvs : List Event :=
      if useTL then
        match fs.tmpLog with
        | some rs => [Event.loadHistoryEv rs]
        | none => []
      else []
    let tskTrial := min n_trial tsk.configSpaceSize
    let recs := tr i tsk tskTrial
    .ok ({ fs with tmpLog := appendLog fs.tmpLog recs },
         Event.createTunerEv tObj tsk :: historyEvs ++ [Event.tuneEv tsk tskTrial])

/-- The enumerate loop of tune_tasks over the (already reversed) task
list, threading the file state and accumulating the event trace; an
exception stops the loop and escapes. -/
def tuneLoop (tr : Nat → Task → Nat → List Record)
    (tuner : String) (n_trial : Nat) (useTL : Bool) :
    Nat → List Task → FS → RunResult
  | _, [], fs => ⟨none, fs, []⟩
  | i, tsk :: rest, fs =>
    match tuneOneTask tr tuner n_trial useTL i tsk fs with
    | .error e => ⟨some e, fs, []⟩
    | .ok (fs1, evs) =>
      let r := tuneLoop tr tuner n_trial useTL (i + 1) rest fs1
      ⟨r.err, r.fs, evs ++ r.events⟩

/-- The tune_tasks function, lines 251-325: remove a pre-existing
temporary log, loop over reversed(tasks), then reduce the temporary log
into the final log (autotvm.record.pick_best, whose reduction is
abstracted by pickBestFn and which opens the temporary log for reading,
raising FileNotFoundError when it is absent) and delete the temporary
log. -/
def tune_tasks (tr : Nat → Task → Nat → List Record)
    (pickBestFn : List Record → List Record)
    (tasks : List Task) (tuner : String) (n_trial : Nat)
    (log_filename : String) (useTL : Bool) (fs0 : FS) : RunResult :=
  let fs1 : FS := { fs0 with tmpLog := none }
  let r := tuneLoop tr tuner n_trial useTL 0 tasks.reverse fs1
  match r.err with
  | some _ => r
  | none =>
    match r.fs.tmpLog with
    | none => ⟨some (.fileNotFoundError (tmp_log_file log_filename)), r.fs, r.events⟩
    | some rs => ⟨none, ⟨none, some (pickBestFn rs)⟩, r.events⟩

/-- Tasks passed to tune calls, in trace order. -/
def tunedOf (evs : List Event) : List Task :=
  evs.filterMap fun e =>
    match e with
    | .tuneEv t _ => some t
    | _ => none

/-- Tasks bound at tuner construction, in trace order. -/
def constructedOf (evs : List Event) : List Task :=
  evs.filterMap fun e =>
    match e with
    | .createTunerEv _ t => some t
    | _ => none

/-- History payloads loaded via load_history, in trace order. -/
def loadedHistories (evs : List Event) : List (List Record) :=
  evs.filterMap fun e =>
    match e with
    | .loadHistoryEv rs => some rs
    | _ => none

/-- Line 109 of tune_relay_int8_cuda.py:
log_file = "./logs/%s.log" % MODEL_NAME + CHR95 + tuning_algo + CHR95 + str(n_trial)
(CHR95 is the underscore character); the percent formatting binds tighter
than the concatenations. -/
def log_file (MODEL_NAME tuning_algo : String) (n_trial : Nat) : String :=
  "./logs/" ++ MODEL_NAME ++ ".log" ++ "_" ++ tuning_algo ++ "_" ++ toString n_trial

/-- Lines 377-378 of tune_relay_int8_cuda.py: the export_library path of
the compiled int8 artifact. -/
def export_path (MODEL_NAME tuning_algo : String) (n_trial : Nat) : String :=
  "./builds/" ++ MODEL_NAME ++ "_" ++ tuning_algo ++ "_" ++ toString n_trial ++ ".so"

/-- The keras / torch model objects constructed by get_network_keras_or_torch
(lines 149-166); the source maps the name mob_v2_0_25 to a MobileNetV2 with
alpha 0.35. -/
inductive ModelObj where
  | resNet50
  | mobileNet
  | mobileNetAlpha05
  | mobileNetV2
  | mobileNetV2Alpha05
  | mobileNetV2Alpha075
  | mobileNetV2Alpha035
  | xception
  | proxylessNet2
deriving DecidableEq, Repr

/-- The model-name dispatch chain of get_network_keras_or_torch
(lines 149-166); the chain has no else branch, so an unrecognized name
leaves the model variable unbound (hence none here). -/
def modelFor (name : String) : Option ModelObj :=
  if name = "resnet_50" then some .resNet50
  else if name = "mob_v1" then some .mobileNet
  else if name = "mob_v1_0_5" then some .mobileNetAlpha05
  else if name = "mob_v2" then some .mobileNetV2
  else if name = "mob_v2_0_5" then some .mobileNetV2Alpha05
  else if name = "mob_v2_0_75" then some .mobileNetV2Alpha075
  else if name = "mob_v2_0_25" then some .mobileNetV2Alpha035
  else if name = "xce_r" then some .xception
  else if name = "gprox_3" then some .proxylessNet2
  else none

/-- A relay module obtained either through the keras converter or through
the torch-to-onnx route (from_torch, lines 124-140). -/
inductive ModGraph where
  | fromKeras (m : ModelObj)
  | fromTorchOnnx (m : ModelObj)
deriving DecidableEq, Repr

/-- Return value of get_network_keras_or_torch. -/
structure Network where
  mod : ModGraph
  input_shape : Nat × Nat × Nat × Nat
  output_shape : Nat × Nat
deriving DecidableEq, Repr

/-- get_network_keras_or_torch, lines 142-174: build the model object by
name, convert through torch/onnx for gprox_3 and through keras otherwise;
for a name outside the dispatch chain the model variable was never
assigned and referencing it in the conversion call raises
UnboundLocalError. -/
def get_network_keras_or_torch (MODEL_NAME : String) (batch_size : Nat) :
    Except PyError Network :=
  let input_shape := (batch_size, 3, 224, 224)
  let output_shape := (batch_size, 1000)
  match modelFor MODEL_NAME with
  | some m =>
    if (["gprox_3"] : List String).contains MODEL_NAME then
      .ok ⟨.fromTorchOnnx m, input_shape, output_shape⟩
    else
      .ok ⟨.fromKeras m, input_shape, output_shape⟩
  | none => .error (.unboundLocalError "model")

/-- The replacement condition of the int8 re-creation pass
(lines 346-356): workload[0] equals conv2d and both channel counts are
divisible by 4. -/
def shouldRecreate (t : Task) : Bool :=
  t.workload.op == "conv2d" && t.workload.outChannels % 4 == 0
    && t.workload.inChannels % 4 == 0

/-- The int8 task re-creation pass of tune_and_evaluate (lines 346-356):
each index is visited once and its entry replaced by a re-created task
(autotvm.task.create on the original fields, abstracted by createTaskFn)
exactly when the condition holds. -/
def int8RecreatePass (createTaskFn : Task → Task) (tasks : List Task) : List Task :=
  tasks.map fun t => if shouldRecreate t then createTaskFn t else t

/-- Line 372-375 of tune_relay_int8_cuda.py: the graph input is bound as
input.1 when MODEL_NAME is a member of the list containing gprox_3, and
as input_1 otherwise. -/
def tune_input_name (MODEL_NAME : String) : String :=
  if (["gprox_3"] : List String).contains MODEL_NAME then "input.1" else "input_1"

/-- Outcome of tune_and_evaluate: escaped exception, tuning trace and file
state, whether compilation happened, the name the input was bound under,
and the export path written. -/
structure PipeResult where
  err : Option PyError
  tuningEvents : List Event
  fs : FS
  compiled : Bool
  inputBound : Option String
  exported : Option String
deriving DecidableEq, Repr

/-- tune_and_evaluate, lines 332-378: obtain the network, quantize it and
extract tasks (external, abstracted by extractTasksFn), run the int8
re-creation pass, run tune_tasks with the tuning_option dictionary
(use_transfer_learning defaults to true), then compile, bind the input
and export the library.  An exception from an earlier stage skips all
later stages. -/
def tune_and_evaluate (tr : Nat → Task → Nat → List Record)
    (pickBestFn : List Record → List Record)
    (extractTasksFn : ModGraph → List Task)
    (createTaskFn : Task → Task)
    (MODEL_NAME tuning_algo : String) (n_trial : Nat)
    (fs0 : FS) : PipeResult :=
  match get_network_keras_or_torch MODEL_NAME 1 with
  | .error e => ⟨some e, [], fs0, false, none, none⟩
  | .ok net =>
    let tasks := extractTasksFn net.mod
    let tasks := int8RecreatePass createTaskFn tasks
    let r := tune_tasks tr pickBestFn tasks tuning_algo n_trial
        (log_file MODEL_NAME tuning_algo n_trial) true fs0
    match r.err with
    | some e => ⟨some e, r.events, r.fs, false, none, none⟩
    | none =>
      ⟨none, r.events, r.fs, true, some (tune_input_name MODEL_NAME),
        some (export_path MODEL_NAME tuning_algo n_trial)⟩

/-- Boolean test that the first list starts the second, written out so
that the Python substring operator can be characterized against it. -/
def startsWith : List Char → List Char → Bool
  | [], _ => true
  | _ :: _, [] => false
  | a :: as, b :: bs => a == b && startsWith as bs

/-- Helper for the Python substring operator over character lists: the
needle starts at some position of the haystack. -/
def strInAux (needle : List Char) : List Char → Bool
  | [] => startsWith needle []
  | c :: rest => startsWith needle (c :: rest) || strInAux needle rest

/-- The Python expression needle in hay on strings: substring containment. -/
def strIn (needle hay : String) : Bool :=
  strInAux needle.toList hay.toList

namespace FromLib

/-- Line 12 of from_lib.py. -/
def MODEL_NAME : String := "xce_r"

/-- Line 13 of from_lib.py. -/
def n_iters : Nat := 50

/-- Line 14 of from_lib.py, written over the two constants it reads. -/
def path_libOf (model : String) (n : Nat) : String :=
  "./builds/" ++ model ++ "_" ++ toString n ++ ".so"

/-- Line 14 of from_lib.py: the path the int8 benchmark harness loads. -/
def path_lib : String := path_libOf MODEL_NAME n_iters

end FromLib

namespace FromLibFp32

/-- Line 25 of from_lib_fp32.py: the path the fp32 benchmark harness loads. -/
def path_lib (MODEL_NAME tuning_algo : String) (n_trial : Nat) : String :=
  "./builds_fp32/" ++ MODEL_NAME ++ "_" ++ tuning_algo ++ "_fp32_" ++ toString n_trial ++ ".so"

/-- Line 26 of from_lib_fp32.py. -/
def originally_from_onnx_models : List String := ["gprox_3"]

/-- Lines 28-32 of from_lib_fp32.py: the loop tests each listed name with
the Python substring operator against the given model name. -/
def is_originally_from_onnx_model (model_name : String) : Bool :=
  originally_from_onnx_models.any fun onnx_name => strIn onnx_name model_name

/-- Lines 47-54 of from_lib_fp32.py: the input tensor is bound as input.1
when the substring test succeeds and as input_1 otherwise. -/
def boundInputName (MODEL_NAME : String) : String :=
  if is_originally_from_onnx_model MODEL_NAME then "input.1" else "input_1"

end FromLibFp32

/-- Sample conv2d workload with both channel counts divisible by 4. -/
def wlConv : Workload := ⟨"conv2d", 8, 4⟩

/-- Sample workload that is not a conv2d. -/
def wlDense : Workload := ⟨"dense", 8, 4⟩

/-- Sample conv2d workload whose input channel count is not divisible by 4. -/
def wlConvOdd : Workload := ⟨"conv2d", 8, 3⟩

/-- Sample task with a configuration space of size 5. -/
def taskA : Task := ⟨"taskA", 5, wlConv⟩

/-- Sample task with a configuration space of size 3. -/
def taskB : Task := ⟨"taskB", 3, wlDense⟩

/-- Sample measurement environment: every tune call logs one record
carrying its budget. -/
def trSample : Nat → Task → Nat → List Record := fun _ _ m => [⟨m⟩]

/-- Sample record reduction keeping the first record. -/
def pickBestSample : List Record → List Record := fun rs => rs.take 1

/-- File state with neither log present. -/
def fsEmpty : FS := ⟨none, none⟩

/-- File state with a temporary log left over from an interrupted run. -/
def fsStale : FS := ⟨some [⟨7⟩], none⟩

/-- Sample task re-creation marking the task name. -/
def createTaskSample : Task → Task := fun t => { t with name := t.name ++ "_int8" }

/-- Shape of one loop iteration when the tuner name is recognized. -/
theorem tuneOneTask_ok (tr : Nat → Task → Nat → List Record) (tuner : String)
    (n : Nat) (useTL : Bool) (i : Nat) (tsk : Task) (fs : FS) (k : Tuner)
    (hk : createTunerObj tuner = some k) :
    tuneOneTask tr tuner n useTL i tsk fs =
      .ok ({ fs with tmpLog := appendLog fs.tmpLog (tr i tsk (min n tsk.configSpaceSize)) },
        Event.createTunerEv k tsk ::
          (if useTL then
            match fs.tmpLog with
            | some rs => [Event.loadHistoryEv rs]
            | none => []
          else []) ++ [Event.tuneEv tsk (min n tsk.configSpaceSize)]) := by
  simp [tuneOneTask, hk]

/-- A recognized tuner name never raises inside the loop. -/
theorem tuneLoop_err_none (tr : Nat → Task → Nat → List Record) (tuner : String)
    (n : Nat) (useTL : Bool) (k : Tuner) (hk : createTunerObj tuner = some k) :
    ∀ (ts : List Task) (i : Nat) (fs : FS),
      (tuneLoop tr tuner n useTL i ts fs).err = none := by
  intro ts
  induction ts with
  | nil => intro i fs; rfl
  | cons t rest ih =>
    intro i fs
    simp [tuneLoop, tuneOneTask_ok tr tuner n useTL i t fs k hk, ih]

/-- The loop never touches the final log. -/
theorem tuneLoop_finalLog (tr : Nat → Task → Nat → List Record) (tuner : String)
    (n : Nat) (useTL : Bool) :
    ∀ (ts : List Task) (i : Nat) (fs : FS),
      (tuneLoop tr tuner n useTL i ts fs).fs.finalLog = fs.finalLog := by
  intro ts
  induction ts with
  | nil => intro i fs; rfl
  | cons t rest ih =>
    intro i fs
    cases hk : createTunerObj tuner with
    | none => simp [tuneLoop, tuneOneTask, hk]
    | some k => simp [tuneLoop, tuneOneTask_ok tr tuner n useTL i t fs k hk, ih]

/-- With a recognized tuner name, the tune calls of the loop are the
given tasks in order. -/
theorem tuneLoop_tunedOf (tr : Nat → Task → Nat → List Record) (tuner : String)
    (n : Nat) (useTL : Bool) (k : Tuner) (hk : createTunerObj tuner = some k) :
    ∀ (ts : List Task) (i : Nat) (fs : FS),
      tunedOf (tuneLoop tr tuner n useTL i ts fs).events = ts := by
  intro ts
  induction ts with
  | nil => intro i fs; rfl
  | cons t rest ih =>
    intro i fs
    rw [tuneLoop, tuneOneTask_ok tr tuner n useTL i t fs k hk]
    cases useTL <;> cases htmp : fs.tmpLog <;>
      simp [tunedOf, List.filterMap_append, List.filterMap_cons] at ih ⊢ <;>
      exact ih _ _

/-- With a recognized tuner name, the tuner constructions of the loop are
bound to the given tasks in order. -/
theorem tuneLoop_constructedOf (tr : Nat → Task → Nat → List Record) (tuner : String)
    (n : Nat) (useTL : Bool) (k : Tuner) (hk : createTunerObj tuner = some k) :
    ∀ (ts : List Task) (i : Nat) (fs : FS),
      constructedOf (tuneLoop tr tuner n useTL i ts fs).events = ts := by
  intro ts
  induction ts with
  | nil => intro i fs; rfl
  | cons t rest ih =>
    intro i fs
    rw [tuneLoop, tuneOneTask_ok tr tuner n useTL i t fs k hk]
    cases useTL <;> cases htmp : fs.tmpLog <;>
      simp [constructedOf, List.filterMap_append, List.filterMap_cons] at ih ⊢ <;>
      exact ih _ _

/-- Every tune call of the loop requests exactly min n size trials. -/
theorem tuneLoop_trials (tr : Nat → Task → Nat → List Record) (tuner : String)
    (n : Nat) (useTL : Bool) :
    ∀ (ts : List Task) (i : Nat) (fs : FS) (t : Task) (m : Nat),
      Event.tuneEv t m ∈ (tuneLoop tr tuner n useTL i ts fs).events →
      m = min n t.configSpaceSize := by
  intro ts
  induction ts with
  | nil => intro i fs t m h; simp [tuneLoop] at h
  | cons t0 rest ih =>
    intro i fs t m h
    obtain ⟨tmp, fin⟩ := fs
    cases hk : createTunerObj tuner with
    | none => simp [tuneLoop, tuneOneTask, hk] at h
    | some k =>
      rw [tuneLoop, tuneOneTask_ok tr tuner n useTL i t0 ⟨tmp, fin⟩ k hk] at h
      cases useTL <;> cases tmp <;> simp at h <;>
        rcases h with ⟨rfl, rfl⟩ | h <;>
        first
          | simp
          | exact ih _ _ _ _ h

/-- When the budget of every tune call is positive and every call logs at
least one record, a non-empty loop leaves the temporary log existing (and
an existing temporary log survives the loop). -/
theorem tuneLoop_tmp_some (tr : Nat → Task → Nat → List Record) (tuner : String)
    (n : Nat) (useTL : Bool) (k : Tuner) (hk : createTunerObj tuner = some k)
    (hn : 1 ≤ n) (htr : ∀ i t m, 1 ≤ m → tr i t m ≠ []) :
    ∀ (ts : List Task) (i : Nat) (fs : FS),
      (∀ t ∈ ts, 1 ≤ t.configSpaceSize) →
      (fs.tmpLog.isSome = true ∨ ts ≠ []) →
      (tuneLoop tr tuner n useTL i ts fs).fs.tmpLog.isSome = true := by
  intro ts
  induction ts with
  | nil =>
    intro i fs hcs hor
    rcases hor with h | h
    · exact h
    · exact absurd rfl h
  | cons t0 rest ih =>
    intro i fs hcs _
    rw [tuneLoop, tuneOneTask_ok tr tuner n useTL i t0 fs k hk]
    have hmin : 1 ≤ min n t0.configSpaceSize :=
      le_min hn (hcs t0 (List.mem_cons_self t0 rest))
    have hrec : tr i t0 (min n t0.configSpaceSize) ≠ [] := htr _ _ _ hmin
    have happ : (appendLog fs.tmpLog (tr i t0 (min n t0.configSpaceSize))).isSome = true := by
      simp [appendLog, List.isEmpty_iff, hrec]
    simp only []
    exact ih (i + 1) _ (fun t ht => hcs t (List.mem_cons_of_mem t0 ht)) (Or.inl happ)

/-- Characterization of the auxiliary word test: the needle starts the
haystack exactly when the haystack extends it. -/
theorem startsWith_iff (n : List Char) :
    ∀ h : List Char, startsWith n h = true ↔ ∃ t, h = n ++ t := by
  induction n with
  | nil =>
    intro h
    simp [startsWith]
  | cons a as ih =>
    intro h
    cases h with
    | nil => simp [startsWith]
    | cons b bs =>
      simp only [startsWith, Bool.and_eq_true, beq_iff_eq, ih bs, List.cons_append]
      constructor
      · rintro ⟨rfl, t, rfl⟩
        exact ⟨t, rfl⟩
      · rintro ⟨t, ht⟩
        rcases List.cons_eq_cons.mp ht with ⟨rfl, rfl⟩
        exact ⟨rfl, t, rfl⟩

/-- Characterization of the Python substring operator over character
lists: the needle occurs contiguously inside the haystack. -/
theorem strInAux_iff (n : List Char) :
    ∀ h : List Char, strInAux n h = true ↔ ∃ p t, h = p ++ n ++ t := by
  intro h
  induction h with
  | nil =>
    simp [strInAux, startsWith_iff]
  | cons c rest ih =>
    simp [strInAux, startsWith_iff, ih]
    constructor
    · rintro (⟨t, ht⟩ | ⟨p, t, hpt⟩)
      · exact ⟨[], t, by simp [ht]⟩
      · exact ⟨c :: p, t, by simp [hpt]⟩
    · rintro ⟨p, t, hpt⟩
      cases p with
      | nil =>
        exact Or.inl ⟨t, by simpa using hpt⟩
      | cons q qs =>
        rcases List.cons_eq_cons.mp (by simpa using hpt) with ⟨rfl, hrest⟩
        exact Or.inr ⟨qs, t, by simpa using hrest⟩

/-- The post-loop steps of tune_tasks never change the event trace. -/
theorem tune_tasks_events (tr : Nat → Task → Nat → List Record)
    (pickBestFn : List Record → List Record) (tasks : List Task)
    (tuner : String) (n_trial : Nat) (log_filename : String) (useTL : Bool)
    (fs0 : FS) :
    (tune_tasks tr pickBestFn tasks tuner n_trial log_filename useTL fs0).events =
      (tuneLoop tr tuner n_trial useTL 0 tasks.reverse { fs0 with tmpLog := none }).events := by
  unfold tune_tasks
  rcases herr : (tuneLoop tr tuner n_trial useTL 0 tasks.reverse { fs0 with tmpLog := none }).err with _ | e
  · rcases htmp : (tuneLoop tr tuner n_trial useTL 0 tasks.reverse
        { fs0 with tmpLog := none }).fs.tmpLog with _ | rs <;>
      simp [herr, htmp]
  · simp [herr]

/-- C1 (counterexample): transfer learning is enabled and a temporary log
from a previous interrupted run exists when tune_tasks is called, yet the
run performs no load_history call at all (the file is deleted at lines
262-263 before the first tuner exists), so its records are not loaded
before the first trial. -/
theorem tune_tasks_stale_tmp_never_loaded_cex :
    fsStale.tmpLog = some [⟨7⟩] ∧
    loadedHistories (tune_tasks trSample pickBestSample [taskA] "xgb" 2
        "tuning.log" true fsStale).events = [] := by
  constructor <;> rfl

/-- C1 (amended): a temporary log existing when tune_tasks is called is
deleted at the start and never loaded — the run is identical to one that
starts with no temporary log; with transfer learning enabled, a task
iteration that begins with an existing in-run temporary log loads exactly
its records as history, between tuner construction and the tune call. -/
theorem tune_tasks_transfer_learning_in_run_only :
    (∀ (tr : Nat → Task → Nat → List Record) (pickBestFn : List Record → List Record)
        (tasks : List Task) (tuner : String) (n_trial : Nat) (log_filename : String)
        (useTL : Bool) (tmp0 : Option (List Record)) (fin : Option (List Record)),
      tune_tasks tr pickBestFn tasks tuner n_trial log_filename useTL ⟨tmp0, fin⟩ =
        tune_tasks tr pickBestFn tasks tuner n_trial log_filename useTL ⟨none, fin⟩) ∧
    (∀ (tr : Nat → Task → Nat → List Record) (tuner : String) (n_trial i : Nat)
        (tsk : Task) (rs : List Record) (fin : Option (List Record)) (k : Tuner),
      createTunerObj tuner = some k →
      tuneOneTask tr tuner n_trial true i tsk ⟨some rs, fin⟩ =
        .ok (⟨appendLog (some rs) (tr i tsk (min n_trial tsk.configSpaceSize)), fin⟩,
          [Event.createTunerEv k tsk, Event.loadHistoryEv rs,
           Event.tuneEv tsk (min n_trial tsk.configSpaceSize)])) := by
  constructor
  · intro tr pickBestFn tasks tuner n_trial log_filename useTL tmp0 fin
    rfl
  · intro tr tuner n_trial i tsk rs fin k hk
    rw [tuneOneTask_ok tr tuner n_trial true i tsk ⟨some rs, fin⟩ k hk]
    rfl

/-- C1 witness: concrete evaluation of the amended statement. -/
theorem tune_tasks_transfer_learning_in_run_only_witness :
    tuneOneTask trSample "xgb" 2 true 0 taskA ⟨some [⟨7⟩], none⟩ =
      .ok (⟨some [⟨7⟩, ⟨2⟩], none⟩,
        [Event.createTunerEv (.xgb "reg" none) taskA, Event.loadHistoryEv [⟨7⟩],
         Event.tuneEv taskA 2]) := by
  have h := tune_tasks_transfer_learning_in_run_only.2 trSample "xgb" 2 0 taskA
    [⟨7⟩] none (.xgb "reg" none) rfl
  simpa [appendLog, trSample, taskA] using h

/-- C2 (counterexample): at the default configuration the tuning log path
is ./logs/gprox_3.log_xgb_knob_2 — the percent formatting of line 109
binds before the concatenations, so the path is not
./logs/gprox_3_xgb_knob_2.log as claimed. -/
theorem log_file_dot_log_in_middle_cex :
    log_file "gprox_3" "xgb_knob" 2 = "./logs/gprox_3.log_xgb_knob_2" ∧
    log_file "gprox_3" "xgb_knob" 2 ≠ "./logs/gprox_3_xgb_knob_2.log" := by
  constructor
  · rfl
  · decide

/-- C2 (amended): for every model name, tuner name and trial count the
tuning log path is ./logs/<model>.log_<tuner>_<trials> — the .log
extension sits directly after the model name, never at the end — and the
search appends records to that path with .tmp appended. -/
theorem log_file_shape_amended :
    (∀ (m a : String) (n : Nat),
      log_file m a n = "./logs/" ++ m ++ ".log" ++ "_" ++ a ++ "_" ++ toString n) ∧
    (∀ (m a : String) (n : Nat),
      log_file m a n ≠ "./logs/" ++ m ++ "_" ++ a ++ "_" ++ toString n ++ ".log") ∧
    (∀ s : String, tmp_log_file s = s ++ ".tmp") := by
  refine ⟨fun m a n => rfl, ?_, fun s => rfl⟩
  intro m a n h
  have hd := congrArg String.data h
  have e1 : (".log" : String).data = '.' :: 'l' :: 'o' :: 'g' :: [] := rfl
  have e2 : ("_" : String).data = '_' :: [] := rfl
  simp only [log_file, String.data_append, List.append_assoc,
    e1, e2, List.cons_append, List.nil_append] at hd
  simp only [List.cons.injEq, eq_self_iff_true, true_and] at hd
  have hd2 := List.append_cancel_left hd
  have h1 : ('.' : Char) = '_' := congrArg (fun l => l.headD ' ') hd2
  exact absurd h1 (by decide)

/-- C3 (counterexample): for model xce_r with 50 trials under the default
tuner, the int8 benchmark harness (from_lib.py, whose path omits the
tuner name) loads ./builds/xce_r_50.so, which is not the path
./builds/xce_r_xgb_knob_50.so that the tuning script exports. -/
theorem from_lib_load_path_mismatch_cex :
    FromLib.path_lib = "./builds/xce_r_50.so" ∧
    export_path "xce_r" "xgb_knob" 50 = "./builds/xce_r_xgb_knob_50.so" ∧
    FromLib.path_lib ≠ export_path "xce_r" "xgb_knob" 50 := by
  refine ⟨rfl, rfl, ?_⟩
  decide

/-- C3 (amended): the tuning script exports the int8 artifact to
./builds/<model>_<tuner>_<trials>.so and the fp32 harness loads
./builds_fp32/<model>_<tuner>_fp32_<trials>.so, but the int8 harness
loads ./builds/<model>_<n_iters>.so with the tuner name omitted (and the
model and count hardcoded to xce_r and 50), a path different from every
export path of that model and count. -/
theorem artifact_paths_amended :
    (∀ (m a : String) (n : Nat),
      export_path m a n = "./builds/" ++ m ++ "_" ++ a ++ "_" ++ toString n ++ ".so") ∧
    (∀ (m a : String) (n : Nat),
      FromLibFp32.path_lib m a n =
        "./builds_fp32/" ++ m ++ "_" ++ a ++ "_fp32_" ++ toString n ++ ".so") ∧
    (∀ (m : String) (n : Nat),
      FromLib.path_libOf m n = "./builds/" ++ m ++ "_" ++ toString n ++ ".so") ∧
    (∀ a : String, FromLib.path_lib ≠ export_path FromLib.MODEL_NAME a FromLib.n_iters) := by
  refine ⟨fun m a n => rfl, fun m a n => rfl, fun m n => rfl, ?_⟩
  intro a h
  have hl := congrArg String.length h
  have c0 : FromLib.path_lib.length = 20 := rfl
  have c1 : ("./builds/" : String).length = 9 := rfl
  have c2 : ("xce_r" : String).length = 5 := rfl
  have c3 : ("_" : String).length = 1 := rfl
  have c4 : (toString (50 : Nat)).length = 2 := rfl
  have c5 : (".so" : String).length = 3 := rfl
  simp only [c0, export_path, FromLib.MODEL_NAME, FromLib.n_iters,
    String.length_append, c1, c2, c3, c4, c5] at hl
  omega

/-- C4 (counterexample): on the empty task sequence tune_tasks raises
FileNotFoundError while reducing the never-created temporary log, and the
final log is not created. -/
theorem tune_tasks_empty_raises_cex :
    (tune_tasks trSample pickBestSample [] "xgb" 2 "tuning.log" true fsEmpty).err
        = some (.fileNotFoundError "tuning.log.tmp") ∧
    (tune_tasks trSample pickBestSample [] "xgb" 2 "tuning.log" true fsEmpty).fs.finalLog
        = none := by
  constructor <;> rfl

/-- C4 (amended): with a recognized tuner, a positive trial budget, tasks
with non-empty configuration spaces and a measurement environment logging
at least one record per positive-budget tune call, tune_tasks on a
non-empty task sequence terminates normally with the final log created
and the temporary log removed; on the empty sequence it instead raises
FileNotFoundError, leaving the final log untouched. -/
theorem tune_tasks_lifecycle_amended (tr : Nat → Task → Nat → List Record)
    (pickBestFn : List Record → List Record) (tasks : List Task)
    (tuner : String) (n_trial : Nat) (log_filename : String) (useTL : Bool)
    (fs0 : FS) (k : Tuner)
    (hk : createTunerObj tuner = some k) (hn : 1 ≤ n_trial)
    (hcs : ∀ t ∈ tasks, 1 ≤ t.configSpaceSize)
    (htr : ∀ i t m, 1 ≤ m → tr i t m ≠ []) :
    (tasks ≠ [] →
      (tune_tasks tr pickBestFn tasks tuner n_trial log_filename useTL fs0).err = none ∧
      (tune_tasks tr pickBestFn tasks tuner n_trial log_filename useTL fs0).fs.finalLog.isSome
          = true ∧
      (tune_tasks tr pickBestFn tasks tuner n_trial log_filename useTL fs0).fs.tmpLog = none) ∧
    (tasks = [] →
      (tune_tasks tr pickBestFn tasks tuner n_trial log_filename useTL fs0).err
          = some (.fileNotFoundError (tmp_log_file log_filename)) ∧
      (tune_tasks tr pickBestFn tasks tuner n_trial log_filename useTL fs0).fs.finalLog
          = fs0.finalLog ∧
      (tune_tasks tr pickBestFn tasks tuner n_trial log_filename useTL fs0).fs.tmpLog
          = none) := by
  have herr := tuneLoop_err_none tr tuner n_trial useTL k hk tasks.reverse 0
    { fs0 with tmpLog := none }
  constructor
  · intro hne
    have htmp := tuneLoop_tmp_some tr tuner n_trial useTL k hk hn htr tasks.reverse 0
      { fs0 with tmpLog := none }
      (fun t ht => hcs t (List.mem_reverse.mp ht))
      (Or.inr (by simpa using hne))
    rcases hsome : (tuneLoop tr tuner n_trial useTL 0 tasks.reverse
        { fs0 with tmpLog := none }).fs.tmpLog with _ | rs
    · rw [hsome] at htmp
      simp at htmp
    · refine ⟨?_, ?_, ?_⟩ <;> simp [tune_tasks, herr, hsome]
  · rintro rfl
    refine ⟨?_, ?_, ?_⟩ <;> simp [tune_tasks, tuneLoop, tmp_log_file]

/-- C4 witness: concrete evaluation of the amended statement. -/
theorem tune_tasks_lifecycle_amended_witness :
    (tune_tasks trSample pickBestSample [taskA] "xgb" 2 "tuning.log" true fsEmpty).err
        = none ∧
    (tune_tasks trSample pickBestSample [taskA] "xgb" 2 "tuning.log" true fsEmpty).fs.finalLog.isSome
        = true ∧
    (tune_tasks trSample pickBestSample [taskA] "xgb" 2 "tuning.log" true fsEmpty).fs.tmpLog
        = none :=
  (tune_tasks_lifecycle_amended trSample pickBestSample [taskA] "xgb" 2 "tuning.log"
      true fsEmpty (.xgb "reg" none) rfl (by decide) (by decide)
      (fun i t m hm => by simp [trSample])).1 (by decide)

/-- C5: tune_tasks processes the tasks in exactly the reverse of the
input order: the tuner constructions and the tune calls both follow the
reversed task list, so the i-th tuner constructed and run (counting from
1) is bound to the task at input position len(tasks) - i. -/
theorem tune_tasks_reverse_order (tr : Nat → Task → Nat → List Record)
    (pickBestFn : List Record → List Record) (tasks : List Task)
    (tuner : String) (n_trial : Nat) (log_filename : String) (useTL : Bool)
    (fs0 : FS) (k : Tuner) (hk : createTunerObj tuner = some k) :
    tunedOf (tune_tasks tr pickBestFn tasks tuner n_trial log_filename useTL fs0).events
        = tasks.reverse ∧
    constructedOf (tune_tasks tr pickBestFn tasks tuner n_trial log_filename useTL fs0).events
        = tasks.reverse ∧
    (∀ i : Nat, 1 ≤ i → i ≤ tasks.length →
      (tunedOf (tune_tasks tr pickBestFn tasks tuner n_trial log_filename useTL
          fs0).events)[i - 1]? = tasks[tasks.length - i]?) := by
  rw [tune_tasks_events]
  refine ⟨tuneLoop_tunedOf tr tuner n_trial useTL k hk tasks.reverse 0 _,
    tuneLoop_constructedOf tr tuner n_trial useTL k hk tasks.reverse 0 _, ?_⟩
  intro i h1 h2
  rw [tuneLoop_tunedOf tr tuner n_trial useTL k hk tasks.reverse 0 _]
  have hlt : i - 1 < tasks.length := by omega
  rw [List.getElem?_reverse (by simpa using hlt)]
  congr 1
  omega

/-- C5 witness: concrete evaluation on a two-task list. -/
theorem tune_tasks_reverse_order_witness :
    tunedOf (tune_tasks trSample pickBestSample [taskA, taskB] "xgb" 2 "tuning.log"
        true fsEmpty).events = [taskB, taskA] ∧
    (tunedOf (tune_tasks trSample pickBestSample [taskA, taskB] "xgb" 2 "tuning.log"
        true fsEmpty).events)[0]? = [taskA, taskB][1]? := by
  have h := tune_tasks_reverse_order trSample pickBestSample [taskA, taskB] "xgb" 2
    "tuning.log" true fsEmpty (.xgb "reg" none) rfl
  exact ⟨h.1, by simpa using h.2.2 1 (by decide) (by decide)⟩

/-- C6: every tune call of a tune_tasks run requests exactly
min(n_trial, size of the task configuration space) trials; in particular
a task whose space is smaller than the requested count gets exactly its
space size. -/
theorem tune_tasks_trial_cap (tr : Nat → Task → Nat → List Record)
    (pickBestFn : List Record → List Record) (tasks : List Task)
    (tuner : String) (n_trial : Nat) (log_filename : String) (useTL : Bool)
    (fs0 : FS) (t : Task) (m : Nat)
    (hmem : Event.tuneEv t m ∈
      (tune_tasks tr pickBestFn tasks tuner n_trial log_filename useTL fs0).events) :
    m = min n_trial t.configSpaceSize ∧
    (t.configSpaceSize < n_trial → m = t.configSpaceSize) := by
  rw [tune_tasks_events] at hmem
  have h := tuneLoop_trials tr tuner n_trial useTL tasks.reverse 0 _ t m hmem
  exact ⟨h, fun hlt => by rw [h]; exact Nat.min_eq_right (Nat.le_of_lt hlt)⟩

/-- C6 witness: with 10 requested trials and a space of size 3, the tune
call requests exactly 3 trials. -/
theorem tune_tasks_trial_cap_witness :
    3 = min 10 taskB.configSpaceSize ∧
    (taskB.configSpaceSize < 10 → 3 = taskB.configSpaceSize) :=
  tune_tasks_trial_cap trSample pickBestSample [taskB] "xgb" 10 "tuning.log" true
    fsEmpty taskB 3 (by decide)

/-- C7 (counterexample): with an unrecognized tuner name and an empty
task list, tune_tasks raises FileNotFoundError from the final reduction
step, not ValueError — the tuner name is only inspected inside the
per-task loop. -/
theorem tune_tasks_bad_tuner_empty_cex :
    createTunerObj "notatuner" = none ∧
    (tune_tasks trSample pickBestSample [] "notatuner" 2 "tuning.log" true fsEmpty).err
        = some (.fileNotFoundError "tuning.log.tmp") ∧
    (tune_tasks trSample pickBestSample [] "notatuner" 2 "tuning.log" true fsEmpty).err
        ≠ some (.valueError ("Invalid tuner: " ++ "notatuner")) := by
  refine ⟨rfl, rfl, ?_⟩
  decide

/-- C7 (amended): for every non-empty task list, an unrecognized tuner
name makes tune_tasks raise ValueError during the first iteration, before
any tune call and before any log file is created (the event trace is
empty, the temporary log is absent and the final log untouched); on the
empty list the name is never inspected and the run fails with
FileNotFoundError instead. -/
theorem tune_tasks_bad_tuner_amended (tr : Nat → Task → Nat → List Record)
    (pickBestFn : List Record → List Record) (tasks : List Task)
    (tuner : String) (n_trial : Nat) (log_filename : String) (useTL : Bool)
    (fs0 : FS) (hnone : createTunerObj tuner = none) (hne : tasks ≠ []) :
    (tune_tasks tr pickBestFn tasks tuner n_trial log_filename useTL fs0).err
        = some (.valueError ("Invalid tuner: " ++ tuner)) ∧
    (tune_tasks tr pickBestFn tasks tuner n_trial log_filename useTL fs0).events = [] ∧
    (tune_tasks tr pickBestFn tasks tuner n_trial log_filename useTL fs0).fs.tmpLog
        = none ∧
    (tune_tasks tr pickBestFn tasks tuner n_trial log_filename useTL fs0).fs.finalLog
        = fs0.finalLog := by
  rcases hrev : tasks.reverse with _ | ⟨t, rest⟩
  · exact absurd (by simpa using hrev) hne
  · refine ⟨?_, ?_, ?_, ?_⟩ <;>
      simp [tune_tasks, hrev, tuneLoop, tuneOneTask, hnone]

/-- C7 witness: concrete evaluation of the amended statement. -/
theorem tune_tasks_bad_tuner_amended_witness :
    (tune_tasks trSample pickBestSample [taskA] "notatuner" 2 "tuning.log" true fsStale).err
        = some (.valueError ("Invalid tuner: " ++ "notatuner")) ∧
    (tune_tasks trSample pickBestSample [taskA] "notatuner" 2 "tuning.log" true
        fsStale).events = [] ∧
    (tune_tasks trSample pickBestSample [taskA] "notatuner" 2 "tuning.log" true
        fsStale).fs.tmpLog = none ∧
    (tune_tasks trSample pickBestSample [taskA] "notatuner" 2 "tuning.log" true
        fsStale).fs.finalLog = fsStale.finalLog :=
  tune_tasks_bad_tuner_amended trSample pickBestSample [taskA] "notatuner" 2
    "tuning.log" true fsStale rfl (by decide)

/-- C8: a model name outside the recognized dispatch set makes the
pipeline fail while building the network (the unbound model variable
raises when the conversion call reads it), before any task extraction,
tuning, compilation, input binding or export. -/
theorem pipeline_unknown_model_fatal (tr : Nat → Task → Nat → List Record)
    (pickBestFn : List Record → List Record) (extractTasksFn : ModGraph → List Task)
    (createTaskFn : Task → Task) (MODEL_NAME tuning_algo : String) (n_trial : Nat)
    (fs0 : FS) (h : modelFor MODEL_NAME = none) :
    tune_and_evaluate tr pickBestFn extractTasksFn createTaskFn MODEL_NAME tuning_algo
        n_trial fs0 =
      ⟨some (.unboundLocalError "model"), [], fs0, false, none, none⟩ := by
  simp [tune_and_evaluate, get_network_keras_or_torch, h]

/-- C8 witness: concrete evaluation at an unrecognized model name. -/
theorem pipeline_unknown_model_fatal_witness :
    tune_and_evaluate trSample pickBestSample (fun _ => [taskA]) createTaskSample
        "alexnet" "xgb" 2 fsEmpty =
      ⟨some (.unboundLocalError "model"), [], fsEmpty, false, none, none⟩ :=
  pipeline_unknown_model_fatal trSample pickBestSample (fun _ => [taskA])
    createTaskSample "alexnet" "xgb" 2 fsEmpty rfl

/-- C9: the int8 re-creation pass preserves the length of the task list
and replaces the entry at an index exactly when its workload operator is
conv2d and both channel counts are divisible by 4; every other entry is
returned unchanged. -/
theorem int8_recreate_frame (createTaskFn : Task → Task) (tasks : List Task) :
    (int8RecreatePass createTaskFn tasks).length = tasks.length ∧
    (∀ (i : Nat) (t : Task), tasks[i]? = some t →
      ((t.workload.op = "conv2d" ∧ t.workload.outChannels % 4 = 0 ∧
          t.workload.inChannels % 4 = 0) →
        (int8RecreatePass createTaskFn tasks)[i]? = some (createTaskFn t)) ∧
      (¬(t.workload.op = "conv2d" ∧ t.workload.outChannels % 4 = 0 ∧
          t.workload.inChannels % 4 = 0) →
        (int8RecreatePass createTaskFn tasks)[i]? = some t)) := by
  constructor
  · simp [int8RecreatePass]
  · intro i t ht
    have hmap : (int8RecreatePass createTaskFn tasks)[i]? =
        some (if shouldRecreate t then createTaskFn t else t) := by
      simp [int8RecreatePass, List.getElem?_map, ht]
    constructor
    · intro hc
      rw [hmap, if_pos]
      simp [shouldRecreate, hc.1, hc.2.1, hc.2.2]
    · intro hc
      rw [hmap, if_neg]
      simp only [shouldRecreate, Bool.and_eq_true, beq_iff_eq]
      intro hcontra
      exact hc ⟨hcontra.1.1, hcontra.1.2, hcontra.2⟩

/-- C9 witness: concrete evaluation on a three-task list where only the
first entry satisfies the condition. -/
theorem int8_recreate_frame_witness :
    (int8RecreatePass createTaskSample [taskA, ⟨"taskC", 5, wlDense⟩,
        ⟨"taskD", 5, wlConvOdd⟩]).length = 3 ∧
    (int8RecreatePass createTaskSample [taskA, ⟨"taskC", 5, wlDense⟩,
        ⟨"taskD", 5, wlConvOdd⟩])[0]? = some (createTaskSample taskA) ∧
    (int8RecreatePass createTaskSample [taskA, ⟨"taskC", 5, wlDense⟩,
        ⟨"taskD", 5, wlConvOdd⟩])[1]? = some ⟨"taskC", 5, wlDense⟩ ∧
    (int8RecreatePass createTaskSample [taskA, ⟨"taskC", 5, wlDense⟩,
        ⟨"taskD", 5, wlConvOdd⟩])[2]? = some ⟨"taskD", 5, wlConvOdd⟩ := by
  have h := int8_recreate_frame createTaskSample
    [taskA, ⟨"taskC", 5, wlDense⟩, ⟨"taskD", 5, wlConvOdd⟩]
  refine ⟨h.1, (h.2 0 taskA rfl).1 (by decide), (h.2 1 ⟨"taskC", 5, wlDense⟩ rfl).2 (by decide),
    (h.2 2 ⟨"taskD", 5, wlConvOdd⟩ rfl).2 (by decide)⟩

/-- C10: the fp32 harness binds the input as input.1 exactly when gprox_3
occurs as a substring of the model name, while the tuning script binds it
as input.1 exactly when the model name equals gprox_3; the two choices
differ on names that merely contain gprox_3. -/
theorem input_name_substring_vs_membership :
    (∀ name : String,
      (FromLibFp32.boundInputName name = "input.1" ↔ strIn "gprox_3" name = true) ∧
      (strIn "gprox_3" name = true ↔
        ∃ p t, name.toList = p ++ "gprox_3".toList ++ t) ∧
      (tune_input_name name = "input.1" ↔ name = "gprox_3")) ∧
    FromLibFp32.boundInputName "my_gprox_3_v2" = "input.1" ∧
    tune_input_name "my_gprox_3_v2" = "input_1" := by
  refine ⟨?_, by decide, by decide⟩
  intro name
  refine ⟨?_, ?_, ?_⟩
  · unfold FromLibFp32.boundInputName
    rcases hb : FromLibFp32.is_originally_from_onnx_model name <;>
      simp [FromLibFp32.is_originally_from_onnx_model,
        FromLibFp32.originally_from_onnx_models] at hb <;>
      simp [hb]
  · exact strInAux_iff "gprox_3".toList name.toList
  · unfold tune_input_name
    rcases hc : (["gprox_3"] : List String).contains name <;>
      simp [List.contains] at hc <;>
      simp [hc]

end TvmBench
